import Mathlib

/-! Shallow embedding of `sequencer/src/api/options.rs` (espresso-sequencer).

The file embeds the `Options` builder API, the topology selection performed by
`Options::serve`, and the helper `init_with_query_module`.  The effectful
collaborator calls made during startup (data-source creation, consensus
bootstrap via the caller-supplied `init_handle` closure, event-stream
subscription, `App::with_state`, module registration, spawning the background
task, and `start_consensus`) are recorded in an explicit trace of events, in
the order the Rust code performs them.  Fallible collaborator calls are
supplied through an `Env` record, so that theorems quantify over every
possible behaviour of the external collaborators. -/

/-- Settings for the filesystem persistence backend (`persistence::fs::Options`),
treated as opaque data here since `serve` only passes them to `D::create`. -/
def FsOptions : Type := Nat

/-- Settings for the SQL persistence backend (`persistence::sql::Options`),
treated as opaque data here since `serve` only passes them to `D::create`. -/
def SqlOptions : Type := Nat

/-- Options for the query API module (`Query`, a unit struct in the source). -/
def Query : Type := Unit

/-- Options for the submission API module (`Submit`, a unit struct). -/
def Submit : Type := Unit

/-- Options for the status API module (`Status`, a unit struct). -/
def Status : Type := Unit

/-- The minimal HTTP API options (`Http`): just the port the server binds. -/
structure Http where
  port : Nat
deriving DecidableEq

/-- The `Options` struct from `api/options.rs`. -/
structure Options where
  http : Http
  query : Option Query
  submit : Option Submit
  status : Option Status
  storage_fs : Option FsOptions
  storage_sql : Option SqlOptions

/-- The `impl From<Http> for Options`: all optional modules absent. -/
def Options.fromHttp (http : Http) : Options :=
  { http := http, query := none, submit := none, status := none,
    storage_fs := none, storage_sql := none }

/-- `Options::query_sql`: add a query API module backed by a Postgres database.
Sets `query` and `storage_sql`; it does not touch `storage_fs`. -/
def Options.query_sql (o : Options) (q : Query) (storage : SqlOptions) : Options :=
  { o with query := some q, storage_sql := some storage }

/-- `Options::query_fs`: add a query API module backed by the file system.
Sets `query` and `storage_fs`; it does not touch `storage_sql`. -/
def Options.query_fs (o : Options) (q : Query) (storage : FsOptions) : Options :=
  { o with query := some q, storage_fs := some storage }

/-- `Options::submit` (the builder method; renamed here because `submit` is
also the name of the field it sets). -/
def Options.withSubmit (o : Options) (s : Submit) : Options :=
  { o with submit := some s }

/-- `Options::status` (the builder method; renamed here because `status` is
also the name of the field it sets). -/
def Options.withStatus (o : Options) (s : Status) : Options :=
  { o with status := some s }

/-- `Options::has_query_module`. -/
def Options.has_query_module (o : Options) : Bool :=
  o.query.isSome && (o.storage_fs.isSome || o.storage_sql.isSome)

/-- The two persistent query-storage backends `serve` can instantiate
(`sql::DataSource` and `fs::DataSource`). -/
inductive Backend where
  | sql
  | fs
deriving DecidableEq

/-- Which metrics object is handed to the caller-supplied `init_handle`
closure: metrics populated from the SQL or filesystem data source, from the
`MetricsDataSource` of the status-only branch, or the `NoMetrics` sink of the
minimal branch. -/
inductive MetricsSrc where
  | sqlDS
  | fsDS
  | metricsDS
  | noMetrics
deriving DecidableEq

/-- The state value handed to `App::with_state` in each branch:
`ExtensibleDataSource(ds, handle)` over a persistent backend, over the
`MetricsDataSource`, or the bare consensus handle in the minimal branch. -/
inductive StateKind where
  | extensibleDS (b : Backend)
  | extensibleMetrics
  | handleOnly
deriving DecidableEq

/-- One observable effectful step performed during `serve`. -/
inductive Event where
  | dsCreate (b : Backend)
  | initHandleCall (m : MetricsSrc)
  | getEventStream
  | withState (k : StateKind)
  | registerModule (name : String)
  | spawnServe
  | spawnJoined
  | startConsensus
deriving DecidableEq

/-- Opaque consensus handle (`Consensus<N>`); the id distinguishes handles. -/
structure Consensus where
  id : Nat
deriving DecidableEq

/-- Index of this node within the cluster. -/
def NodeIndex : Type := Nat

/-- Shape of the spawned background task stored in `SequencerNode.update_task`:
either `spawn(app.serve(addr))` alone, or
`spawn(async { join!(app.serve(addr), update_loop(state, events)).0 })`. -/
inductive TaskKind where
  | serveOnly (port : Nat)
  | joinedServeUpdate (port : Nat)
deriving DecidableEq

/-- The `SequencerNode` record returned by a successful `serve`. -/
structure SequencerNode where
  handle : Consensus
  node_index : Nat
  update_task : TaskKind
deriving DecidableEq

/-- Behaviour of the external collaborators `serve` calls into.  Each fallible
call is a field returning `Except`; `initHandle` models the caller-supplied
closure, which the source treats as infallible. -/
structure Env where
  createSql : SqlOptions → Except String Unit
  createFs : FsOptions → Except String Unit
  initHandle : MetricsSrc → Consensus × Nat
  mkSubmitApi : Except String Unit
  mkStatusApi : Except String Unit
  mkAvailabilityApi : Except String Unit
  registerModule : String → Except String Unit

/-- Trace-writer over `Except`: a computation yields the list of events it
performed (kept even when it fails) together with its result. -/
def M (α : Type) : Type := List Event × Except String α

/-- Return for `M`. -/
def mret {α : Type} (a : α) : M α := ([], Except.ok a)

/-- Bind for `M`: on failure the remaining computation is skipped, mirroring
the `?` operator; the trace of the prefix is kept. -/
def mbind {α β : Type} (x : M α) (f : α → M β) : M β :=
  match x with
  | (t, Except.error e) => (t, Except.error e)
  | (t, Except.ok a) => (t ++ (f a).1, (f a).2)

/-- Record one event. -/
def emit (e : Event) : M Unit := ([e], Except.ok ())

/-- Lift a fallible collaborator result into `M`. -/
def liftE {α : Type} (r : Except String α) : M α := ([], r)

/-- One `api?; app.register_module(name, api)?` pair: building the API
description may fail, and registering it may fail; the `registerModule` event
records that the registration call was made. -/
def registerModuleStep (env : Env) (api : Except String Unit) (name : String) : M Unit :=
  mbind (liftE api) fun _ =>
  mbind (emit (Event.registerModule name)) fun _ =>
  liftE (env.registerModule name)

/-- A module registration guarded by an `if opt.xxx.is_some()` in the source. -/
def condRegister (env : Env) (flag : Bool) (api : Except String Unit) (name : String) : M Unit :=
  if flag then registerModuleStep env api name else mret ()

/-- The metrics object produced by `ds.populate_metrics()` for each backend. -/
def backendMetrics : Backend → MetricsSrc
  | Backend.sql => MetricsSrc.sqlDS
  | Backend.fs => MetricsSrc.fsDS

/-- The free function `init_with_query_module::<N, D>(opt, mod_opt, init_handle)`.
The generic backend `D` and the `D::create(mod_opt, false)` call are passed in
as `b` and `c` (instantiated by `serve` from `env`).  Step order follows the
source: create the data source, populate metrics, bootstrap the handle,
subscribe to the event stream (before consensus is started), build the app
state, register `submit` / `status` when requested, register `availability`
unconditionally, then spawn the joined server + update-loop task. -/
def init_with_query_module (env : Env) (b : Backend) (c : Except String Unit)
    (opt : Options) : M SequencerNode :=
  mbind (emit (Event.dsCreate b)) fun _ =>
  mbind (liftE c) fun _ =>
  mbind (emit (Event.initHandleCall (backendMetrics b))) fun _ =>
  mbind (emit Event.getEventStream) fun _ =>
  mbind (emit (Event.withState (StateKind.extensibleDS b))) fun _ =>
  mbind (condRegister env opt.submit.isSome env.mkSubmitApi "submit") fun _ =>
  mbind (condRegister env opt.status.isSome env.mkStatusApi "status") fun _ =>
  mbind (registerModuleStep env env.mkAvailabilityApi "availability") fun _ =>
  mbind (emit Event.spawnJoined) fun _ =>
  mret { handle := (env.initHandle (backendMetrics b)).1,
         node_index := (env.initHandle (backendMetrics b)).2,
         update_task := TaskKind.joinedServeUpdate opt.http.port }

/-- The branch of `serve` taken when no storage is configured but a status API
is requested: `MetricsDataSource::default()`, bootstrap the handle from its
metrics, wrap `ExtensibleDataSource(ds, handle)` as app state, register
`status`, register `submit` when requested, spawn the plain server task. -/
def statusBranch (env : Env) (o : Options) : M SequencerNode :=
  mbind (emit (Event.initHandleCall MetricsSrc.metricsDS)) fun _ =>
  mbind (emit (Event.withState StateKind.extensibleMetrics)) fun _ =>
  mbind (registerModuleStep env env.mkStatusApi "status") fun _ =>
  mbind (condRegister env o.submit.isSome env.mkSubmitApi "submit") fun _ =>
  mbind (emit Event.spawnServe) fun _ =>
  mret { handle := (env.initHandle MetricsSrc.metricsDS).1,
         node_index := (env.initHandle MetricsSrc.metricsDS).2,
         update_task := TaskKind.serveOnly o.http.port }

/-- The branch of `serve` taken when neither storage nor status is configured:
bootstrap the handle with `NoMetrics`, use the bare handle as app state,
register `submit` when requested, spawn the plain server task. -/
def minimalBranch (env : Env) (o : Options) : M SequencerNode :=
  mbind (emit (Event.initHandleCall MetricsSrc.noMetrics)) fun _ =>
  mbind (emit (Event.withState StateKind.handleOnly)) fun _ =>
  mbind (condRegister env o.submit.isSome env.mkSubmitApi "submit") fun _ =>
  mbind (emit Event.spawnServe) fun _ =>
  mret { handle := (env.initHandle MetricsSrc.noMetrics).1,
         node_index := (env.initHandle MetricsSrc.noMetrics).2,
         update_task := TaskKind.serveOnly o.http.port }

/-- `Options::serve`: dispatch on `self.storage_sql.take()`, then
`self.storage_fs.take()`, then `self.status.is_some()`; after the chosen
branch returns a node, call `node.handle.hotshot.start_consensus()` and
return the node.  The record updates mirror the `take()` calls. -/
def serve (env : Env) (o : Options) : M SequencerNode :=
  mbind
    (match o.storage_sql with
     | some opt =>
       init_with_query_module env Backend.sql (env.createSql opt)
         { o with storage_sql := none }
     | none =>
       match o.storage_fs with
       | some opt =>
         init_with_query_module env Backend.fs (env.createFs opt)
           { o with storage_fs := none }
       | none =>
         if o.status.isSome then statusBranch env o else minimalBranch env o)
    fun node =>
  mbind (emit Event.startConsensus) fun _ =>
  mret node

/-- The four mutually exclusive server topologies. -/
inductive Topology where
  | querySql
  | queryFs
  | statusOnly
  | minimal
deriving DecidableEq

/-- The topology `serve` selects, read off the branch structure of the source:
SQL storage first, then filesystem storage, then status, else minimal. -/
def selectTopology (o : Options) : Topology :=
  if o.storage_sql.isSome then Topology.querySql
  else if o.storage_fs.isSome then Topology.queryFs
  else if o.status.isSome then Topology.statusOnly
  else Topology.minimal

/-- First event each topology's branch emits; the four are pairwise distinct,
so the head of the trace identifies the branch taken. -/
def topologyTag : Topology → Event
  | Topology.querySql => Event.dsCreate Backend.sql
  | Topology.queryFs => Event.dsCreate Backend.fs
  | Topology.statusOnly => Event.initHandleCall MetricsSrc.metricsDS
  | Topology.minimal => Event.initHandleCall MetricsSrc.noMetrics

/-- Metrics source each topology hands to `init_handle`. -/
def topologyMetrics : Topology → MetricsSrc
  | Topology.querySql => MetricsSrc.sqlDS
  | Topology.queryFs => MetricsSrc.fsDS
  | Topology.statusOnly => MetricsSrc.metricsDS
  | Topology.minimal => MetricsSrc.noMetrics

/-- Trace fragment contributed by an optional module registration. -/
def condTrace (flag : Bool) (name : String) : List Event :=
  if flag then [Event.registerModule name] else []

/-- Events of a successful `init_with_query_module` run over backend `b`. -/
def queryModuleTrace (b : Backend) (o : Options) : List Event :=
  [Event.dsCreate b, Event.initHandleCall (backendMetrics b), Event.getEventStream,
   Event.withState (StateKind.extensibleDS b)]
  ++ condTrace o.submit.isSome "submit"
  ++ condTrace o.status.isSome "status"
  ++ [Event.registerModule "availability", Event.spawnJoined]

/-- Events of a successful status-only branch run. -/
def statusTrace (o : Options) : List Event :=
  [Event.initHandleCall MetricsSrc.metricsDS, Event.withState StateKind.extensibleMetrics,
   Event.registerModule "status"]
  ++ condTrace o.submit.isSome "submit"
  ++ [Event.spawnServe]

/-- Events of a successful minimal branch run. -/
def minimalTrace (o : Options) : List Event :=
  [Event.initHandleCall MetricsSrc.noMetrics, Event.withState StateKind.handleOnly]
  ++ condTrace o.submit.isSome "submit"
  ++ [Event.spawnServe]

/-- Events of a successful run of the branch `serve` selects (the final
`startConsensus` of `serve` itself not included). -/
def successTrace (o : Options) : List Event :=
  match selectTopology o with
  | Topology.querySql => queryModuleTrace Backend.sql o
  | Topology.queryFs => queryModuleTrace Backend.fs o
  | Topology.statusOnly => statusTrace o
  | Topology.minimal => minimalTrace o

/-- Background-task shape of each topology. -/
def expectedTask (o : Options) : TaskKind :=
  match selectTopology o with
  | Topology.querySql => TaskKind.joinedServeUpdate o.http.port
  | Topology.queryFs => TaskKind.joinedServeUpdate o.http.port
  | Topology.statusOnly => TaskKind.serveOnly o.http.port
  | Topology.minimal => TaskKind.serveOnly o.http.port

/-- Node a successful `serve` returns. -/
def expectedNode (env : Env) (o : Options) : SequencerNode :=
  { handle := (env.initHandle (topologyMetrics (selectTopology o))).1,
    node_index := (env.initHandle (topologyMetrics (selectTopology o))).2,
    update_task := expectedTask o }

/-- The data-source `create` call `serve` will perform, if any: `D::create`
over the SQL settings when `storage_sql` is set, else over the filesystem
settings when `storage_fs` is set, else no create call at all. -/
def createStep (env : Env) (o : Options) : Option (Except String Unit) :=
  match o.storage_sql with
  | some opt => some (env.createSql opt)
  | none =>
    match o.storage_fs with
    | some opt => some (env.createFs opt)
    | none => none

/-- Result of awaiting the background task, as a function of the outcome of
the HTTP server future and of the update loop future (`none` meaning the
future never resolves).  `spawn(app.serve(addr))` yields the server's result.
`spawn(async { join!(app.serve(addr), update_loop(state, events)).0 })` uses
`futures::join!`, which resolves only once both futures have resolved, and
`.0` projects out the server's result, discarding the update loop's. -/
def awaitTask (k : TaskKind) (srv upd : Option (Except String Unit)) :
    Option (Except String Unit) :=
  match k with
  | TaskKind.serveOnly _ => srv
  | TaskKind.joinedServeUpdate _ =>
    match srv, upd with
    | some r, some _ => some r
    | _, _ => none

/-- One call in a builder sequence on `Options`. -/
inductive BuilderCall where
  | querySqlCall (q : Query) (s : SqlOptions)
  | queryFsCall (q : Query) (s : FsOptions)
  | submitCall (s : Submit)
  | statusCall (s : Status)

/-- Apply one builder call. -/
def applyCall (o : Options) : BuilderCall → Options
  | BuilderCall.querySqlCall q s => o.query_sql q s
  | BuilderCall.queryFsCall q s => o.query_fs q s
  | BuilderCall.submitCall s => o.withSubmit s
  | BuilderCall.statusCall s => o.withStatus s

/-- An `Options` value built through the public builder API: `From<Http>`
followed by any sequence of builder calls. -/
def build (http : Http) (calls : List BuilderCall) : Options :=
  calls.foldl applyCall (Options.fromHttp http)

/-- Whether a builder call is `query_sql`. -/
def isQuerySqlCall : BuilderCall → Bool
  | BuilderCall.querySqlCall _ _ => true
  | _ => false

/-- Whether a builder call is `query_fs`. -/
def isQueryFsCall : BuilderCall → Bool
  | BuilderCall.queryFsCall _ _ => true
  | _ => false

/-- Environment in which every collaborator call succeeds. -/
def okEnv : Env :=
  { createSql := fun _ => Except.ok (),
    createFs := fun _ => Except.ok (),
    initHandle := fun _ => ({ id := 0 }, 0),
    mkSubmitApi := Except.ok (),
    mkStatusApi := Except.ok (),
    mkAvailabilityApi := Except.ok (),
    registerModule := fun _ => Except.ok () }

/-- Environment whose SQL data-source creation fails. -/
def failSqlEnv : Env :=
  { okEnv with createSql := fun _ => Except.error "disk" }

/-- Concrete options: SQL storage configured, everything else absent. -/
def oSqlEx : Options :=
  { http := { port := 80 }, query := none, submit := none, status := none,
    storage_fs := none, storage_sql := some (0 : Nat) }

/-- Concrete options: status requested, no storage, nothing else. -/
def oStatusEx : Options :=
  { http := { port := 80 }, query := none, submit := none, status := some (),
    storage_fs := none, storage_sql := none }

/-- Concrete options: nothing requested at all. -/
def oMinEx : Options :=
  { http := { port := 80 }, query := none, submit := none, status := none,
    storage_fs := none, storage_sql := none }

/-- Concrete options: only the submit module requested. -/
def oSubEx : Options :=
  { http := { port := 80 }, query := none, submit := some (), status := none,
    storage_fs := none, storage_sql := none }

/-- The node a successful run of `serve okEnv oSqlEx` returns. -/
def nodeSqlEx : SequencerNode :=
  { handle := { id := 0 }, node_index := 0,
    update_task := TaskKind.joinedServeUpdate 80 }

/-- Concrete builder call sequence containing no `query_sql` call. -/
def callsEx : List BuilderCall :=
  [BuilderCall.submitCall (), BuilderCall.statusCall (), BuilderCall.queryFsCall () (0 : Nat)]

theorem mbind_ok_decomp {α β : Type} {x : M α} {f : α → M β} {t : List Event} {b : β}
    (h : mbind x f = (t, Except.ok b)) :
    ∃ a, x.2 = Except.ok a ∧ f a = ((f a).1, Except.ok b) ∧ t = x.1 ++ (f a).1 := by
  obtain ⟨t1, r⟩ := x
  cases r with
  | error e =>
    simp only [mbind] at h
    rw [Prod.mk.injEq] at h
    exact absurd h.2 (by simp)
  | ok a =>
    simp only [mbind] at h
    rw [Prod.mk.injEq] at h
    refine ⟨a, rfl, ?_, h.1.symm⟩
    rw [← h.2]
    exact Prod.mk.eta.symm

theorem registerModuleStep_ok_fst {env : Env} {api : Except String Unit} {name : String}
    {u : Unit} (h : (registerModuleStep env api name).2 = Except.ok u) :
    (registerModuleStep env api name).1 = [Event.registerModule name] := by
  cases hapi : api <;> cases hreg : env.registerModule name <;>
    simp_all [registerModuleStep, mbind, emit, liftE]

theorem condRegister_ok_fst {env : Env} {flag : Bool} {api : Except String Unit}
    {name : String} {u : Unit} (h : (condRegister env flag api name).2 = Except.ok u) :
    (condRegister env flag api name).1 = condTrace flag name := by
  cases flag with
  | false => simp [condRegister, condTrace, mret]
  | true =>
    simp only [condRegister, if_true] at h ⊢
    rw [registerModuleStep_ok_fst h]
    simp [condTrace]

theorem init_with_query_module_ok {env : Env} {b : Backend} {c : Except String Unit}
    {opt : Options} {t : List Event} {node : SequencerNode}
    (h : init_with_query_module env b c opt = (t, Except.ok node)) :
    t = queryModuleTrace b opt ∧
    node = { handle := (env.initHandle (backendMetrics b)).1,
             node_index := (env.initHandle (backendMetrics b)).2,
             update_task := TaskKind.joinedServeUpdate opt.http.port } := by
  unfold init_with_query_module at h
  obtain ⟨a1, hx1, h1, ht1⟩ := mbind_ok_decomp h
  obtain ⟨a2, hx2, h2, ht2⟩ := mbind_ok_decomp h1
  obtain ⟨a3, hx3, h3, ht3⟩ := mbind_ok_decomp h2
  obtain ⟨a4, hx4, h4, ht4⟩ := mbind_ok_decomp h3
  obtain ⟨a5, hx5, h5, ht5⟩ := mbind_ok_decomp h4
  obtain ⟨a6, hx6, h6, ht6⟩ := mbind_ok_decomp h5
  obtain ⟨a7, hx7, h7, ht7⟩ := mbind_ok_decomp h6
  obtain ⟨a8, hx8, h8, ht8⟩ := mbind_ok_decomp h7
  obtain ⟨a9, hx9, h9, ht9⟩ := mbind_ok_decomp h8
  have hnode := congrArg Prod.snd h9
  simp only [mret, Except.ok.injEq] at hnode
  constructor
  · rw [ht1, ht2, ht3, ht4, ht5, ht6, ht7, ht8, ht9,
      condRegister_ok_fst hx6, condRegister_ok_fst hx7, registerModuleStep_ok_fst hx8]
    simp [emit, liftE, mret, queryModuleTrace]
  · exact hnode.symm

theorem statusBranch_ok {env : Env} {o : Options} {t : List Event} {node : SequencerNode}
    (h : statusBranch env o = (t, Except.ok node)) :
    t = statusTrace o ∧
    node = { handle := (env.initHandle MetricsSrc.metricsDS).1,
             node_index := (env.initHandle MetricsSrc.metricsDS).2,
             update_task := TaskKind.serveOnly o.http.port } := by
  unfold statusBranch at h
  obtain ⟨a1, hx1, h1, ht1⟩ := mbind_ok_decomp h
  obtain ⟨a2, hx2, h2, ht2⟩ := mbind_ok_decomp h1
  obtain ⟨a3, hx3, h3, ht3⟩ := mbind_ok_decomp h2
  obtain ⟨a4, hx4, h4, ht4⟩ := mbind_ok_decomp h3
  obtain ⟨a5, hx5, h5, ht5⟩ := mbind_ok_decomp h4
  have hnode := congrArg Prod.snd h5
  simp only [mret, Except.ok.injEq] at hnode
  constructor
  · rw [ht1, ht2, ht3, ht4, ht5,
      registerModuleStep_ok_fst hx3, condRegister_ok_fst hx4]
    simp [emit, liftE, mret, statusTrace]
  · exact hnode.symm

theorem minimalBranch_ok {env : Env} {o : Options} {t : List Event} {node : SequencerNode}
    (h : minimalBranch env o = (t, Except.ok node)) :
    t = minimalTrace o ∧
    node = { handle := (env.initHandle MetricsSrc.noMetrics).1,
             node_index := (env.initHandle MetricsSrc.noMetrics).2,
             update_task := TaskKind.serveOnly o.http.port } := by
  unfold minimalBranch at h
  obtain ⟨a1, hx1, h1, ht1⟩ := mbind_ok_decomp h
  obtain ⟨a2, hx2, h2, ht2⟩ := mbind_ok_decomp h1
  obtain ⟨a3, hx3, h3, ht3⟩ := mbind_ok_decomp h2
  obtain ⟨a4, hx4, h4, ht4⟩ := mbind_ok_decomp h3
  have hnode := congrArg Prod.snd h4
  simp only [mret, Except.ok.injEq] at hnode
  constructor
  · rw [ht1, ht2, ht3, ht4, condRegister_ok_fst hx3]
    simp [emit, liftE, mret, minimalTrace]
  · exact hnode.symm

theorem snd_ok_pair {α : Type} {p : List Event × Except String α} {a : α}
    (h : p.2 = Except.ok a) : p = (p.1, Except.ok a) := by
  rw [← h]

theorem serve_ok {env : Env} {o : Options} {t : List Event} {node : SequencerNode}
    (h : serve env o = (t, Except.ok node)) :
    t = successTrace o ++ [Event.startConsensus] ∧ node = expectedNode env o := by
  unfold serve at h
  obtain ⟨nd, hX, hK, ht⟩ := mbind_ok_decomp h
  obtain ⟨u, _, hK2, ht2⟩ := mbind_ok_decomp hK
  have ha := congrArg Prod.snd hK2
  simp only [mret, Except.ok.injEq] at ha
  rw [ha] at hX
  rw [ht2] at ht
  simp only [emit, mret, List.append_nil] at ht
  cases hsql : o.storage_sql with
  | some opt =>
    simp only [hsql] at hX ht
    obtain ⟨ht1, hnode⟩ := init_with_query_module_ok (snd_ok_pair hX)
    constructor
    · rw [ht, ht1]
      simp [successTrace, selectTopology, hsql, queryModuleTrace]
    · rw [hnode]
      simp [expectedNode, expectedTask, topologyMetrics, selectTopology, hsql,
        backendMetrics]
  | none =>
    cases hfs : o.storage_fs with
    | some opt =>
      simp only [hsql, hfs] at hX ht
      obtain ⟨ht1, hnode⟩ := init_with_query_module_ok (snd_ok_pair hX)
      constructor
      · rw [ht, ht1]
        simp [successTrace, selectTopology, hsql, hfs, queryModuleTrace]
      · rw [hnode]
        simp [expectedNode, expectedTask, topologyMetrics, selectTopology, hsql, hfs,
          backendMetrics]
    | none =>
      cases hst : o.status.isSome with
      | true =>
        simp only [hsql, hfs, hst, if_true] at hX ht
        obtain ⟨ht1, hnode⟩ := statusBranch_ok (snd_ok_pair hX)
        constructor
        · rw [ht, ht1]
          simp [successTrace, selectTopology, hsql, hfs, hst]
        · rw [hnode]
          simp [expectedNode, expectedTask, topologyMetrics, selectTopology, hsql, hfs, hst]
      | false =>
        simp only [hsql, hfs, hst, Bool.false_eq_true, if_false] at hX ht
        obtain ⟨ht1, hnode⟩ := minimalBranch_ok (snd_ok_pair hX)
        constructor
        · rw [ht, ht1]
          simp [successTrace, selectTopology, hsql, hfs, hst]
        · rw [hnode]
          simp [expectedNode, expectedTask, topologyMetrics, selectTopology, hsql, hfs, hst]

theorem mbind_fst {α β : Type} (x : M α) (f : α → M β) :
    (mbind x f).1 =
      x.1 ++ (match x.2 with | Except.ok a => (f a).1 | Except.error _ => []) := by
  obtain ⟨t, r⟩ := x
  cases r <;> simp [mbind]

theorem serve_fst_head (env : Env) (o : Options) :
    (serve env o).1.head? = some (topologyTag (selectTopology o)) := by
  unfold serve
  rw [mbind_fst]
  cases hsql : o.storage_sql with
  | some opt =>
    simp [hsql, selectTopology, topologyTag, init_with_query_module, mbind, emit]
  | none =>
    cases hfs : o.storage_fs with
    | some opt =>
      simp [hsql, hfs, selectTopology, topologyTag, init_with_query_module, mbind, emit]
    | none =>
      cases hst : o.status.isSome with
      | true =>
        simp [hsql, hfs, hst, selectTopology, topologyTag, statusBranch, mbind, emit]
      | false =>
        simp [hsql, hfs, hst, selectTopology, topologyTag, minimalBranch, mbind, emit]

/-- C1: in the query topologies (`storage_sql` or `storage_fs` set), every
successful run of `serve` obtains the event stream from the consensus handle
strictly before `start_consensus` is invoked: the trace splits as
`t1 ++ getEventStream :: t2 ++ startConsensus :: t3`. -/
theorem serve_subscribes_before_start_consensus (env : Env) (o : Options)
    (hq : o.storage_sql.isSome = true ∨ o.storage_fs.isSome = true)
    {t : List Event} {node : SequencerNode} (h : serve env o = (t, Except.ok node)) :
    ∃ t1 t2 t3, t = t1 ++ Event.getEventStream :: (t2 ++ Event.startConsensus :: t3) := by
  obtain ⟨ht, -⟩ := serve_ok h
  subst ht
  cases hsql : o.storage_sql.isSome with
  | true =>
    refine ⟨[Event.dsCreate Backend.sql, Event.initHandleCall MetricsSrc.sqlDS],
      Event.withState (StateKind.extensibleDS Backend.sql) ::
        (condTrace o.submit.isSome "submit" ++ condTrace o.status.isSome "status" ++
         [Event.registerModule "availability", Event.spawnJoined]), [], ?_⟩
    simp [successTrace, selectTopology, hsql, queryModuleTrace, backendMetrics]
  | false =>
    have hfs : o.storage_fs.isSome = true := by
      rcases hq with h1 | h1
      · rw [hsql] at h1; exact absurd h1 (by simp)
      · exact h1
    refine ⟨[Event.dsCreate Backend.fs, Event.initHandleCall MetricsSrc.fsDS],
      Event.withState (StateKind.extensibleDS Backend.fs) ::
        (condTrace o.submit.isSome "submit" ++ condTrace o.status.isSome "status" ++
         [Event.registerModule "availability", Event.spawnJoined]), [], ?_⟩
    simp [successTrace, selectTopology, hsql, hfs, queryModuleTrace, backendMetrics]

/-- C1 witness: a concrete successful SQL-topology run of `serve`. -/
theorem serve_subscribes_before_start_consensus_w :
    ∃ t1 t2 t3, (serve okEnv oSqlEx).1 =
      t1 ++ Event.getEventStream :: (t2 ++ Event.startConsensus :: t3) :=
  serve_subscribes_before_start_consensus okEnv oSqlEx (Or.inl rfl) rfl

/-- C2: topology selection in `serve` is the deterministic total function
`selectTopology`, evaluated with SQL storage first, then filesystem storage,
then status, else minimal; the head of the trace of every run (successful or
not) is the distinguishing first event of the selected topology, and when both
storages are set SQL takes priority. -/
theorem serve_topology_selection_priority :
    (∀ env o, (serve env o).1.head? = some (topologyTag (selectTopology o))) ∧
    (∀ http q sub st fso sqo,
      selectTopology { http := http, query := q, submit := sub, status := st,
                       storage_fs := fso, storage_sql := some sqo } = Topology.querySql) ∧
    (∀ http q sub st fso,
      selectTopology { http := http, query := q, submit := sub, status := st,
                       storage_fs := some fso, storage_sql := none } = Topology.queryFs) ∧
    (∀ http q sub st,
      selectTopology { http := http, query := q, submit := sub, status := some st,
                       storage_fs := none, storage_sql := none } = Topology.statusOnly) ∧
    (∀ http q sub,
      selectTopology { http := http, query := q, submit := sub, status := none,
                       storage_fs := none, storage_sql := none } = Topology.minimal) := by
  refine ⟨serve_fst_head, ?_, ?_, ?_, ?_⟩ <;> intros <;> simp [selectTopology]

/-- C4: if the data-source `create` call fails in a query topology, `serve`
returns that error, and its trace contains no module registration and no
`start_consensus` call. -/
theorem create_failure_aborts_serve (env : Env) (o : Options) (e : String)
    (hc : createStep env o = some (Except.error e)) :
    (serve env o).2 = Except.error e ∧
    ∀ ev ∈ (serve env o).1,
      (∀ n, ev ≠ Event.registerModule n) ∧ ev ≠ Event.startConsensus := by
  unfold createStep at hc
  unfold serve
  cases hsql : o.storage_sql with
  | some opt =>
    rw [hsql] at hc
    simp only [Option.some.injEq] at hc
    simp [hsql, init_with_query_module, mbind, emit, liftE, hc]
  | none =>
    rw [hsql] at hc
    cases hfs : o.storage_fs with
    | some opt =>
      rw [hfs] at hc
      simp only [Option.some.injEq] at hc
      simp [hsql, hfs, init_with_query_module, mbind, emit, liftE, hc]
    | none => rw [hfs] at hc; exact absurd hc (by simp)

/-- C4 witness: a concrete run whose SQL data source fails to open. -/
theorem create_failure_aborts_serve_w :
    (serve failSqlEnv oSqlEx).2 = Except.error "disk" ∧
    ∀ ev ∈ (serve failSqlEnv oSqlEx).1,
      (∀ n, ev ≠ Event.registerModule n) ∧ ev ≠ Event.startConsensus :=
  create_failure_aborts_serve failSqlEnv oSqlEx "disk" rfl

/-- C6: with no storage configured and status set, every successful `serve`
run uses the metrics-only data source as app state, registers the status
module, never calls `get_event_stream`, never spawns the update loop, and
creates no persistent data source. -/
theorem status_only_topology (env : Env) (o : Options)
    (h1 : o.storage_sql = none) (h2 : o.storage_fs = none)
    (h3 : o.status.isSome = true)
    {t : List Event} {node : SequencerNode} (h : serve env o = (t, Except.ok node)) :
    Event.withState StateKind.extensibleMetrics ∈ t ∧
    Event.registerModule "status" ∈ t ∧
    Event.getEventStream ∉ t ∧
    Event.spawnJoined ∉ t ∧
    (∀ b, Event.dsCreate b ∉ t) := by
  obtain ⟨ht, -⟩ := serve_ok h
  subst ht
  have hsel : selectTopology o = Topology.statusOnly := by
    simp [selectTopology, h1, h2, h3]
  cases hsub : o.submit.isSome <;>
    simp [successTrace, hsel, statusTrace, condTrace, hsub]

/-- C6 witness: a concrete successful status-only run. -/
theorem status_only_topology_w :
    Event.withState StateKind.extensibleMetrics ∈ (serve okEnv oStatusEx).1 ∧
    Event.registerModule "status" ∈ (serve okEnv oStatusEx).1 ∧
    Event.getEventStream ∉ (serve okEnv oStatusEx).1 ∧
    Event.spawnJoined ∉ (serve okEnv oStatusEx).1 ∧
    (∀ b, Event.dsCreate b ∉ (serve okEnv oStatusEx).1) :=
  status_only_topology okEnv oStatusEx rfl rfl rfl rfl

/-- C7: with no storage and no status configured, `serve` takes the Minimal
branch (the selector is total and never fails because optional modules are
absent): `NoMetrics` is handed to the consensus bootstrapper, the bare handle
is the app state, with no optional module the run always succeeds, and in
general it succeeds exactly unless a requested submit-module registration
fails. -/
theorem minimal_topology_total (env : Env) (o : Options)
    (h1 : o.storage_sql = none) (h2 : o.storage_fs = none) (h3 : o.status = none) :
    selectTopology o = Topology.minimal ∧
    (serve env o).1.head? = some (Event.initHandleCall MetricsSrc.noMetrics) ∧
    Event.withState StateKind.handleOnly ∈ (serve env o).1 ∧
    (o.submit = none →
      serve env o = (minimalTrace o ++ [Event.startConsensus],
                     Except.ok (expectedNode env o))) ∧
    ((∃ node, (serve env o).2 = Except.ok node) ↔
      (o.submit.isSome = true →
        env.mkSubmitApi = Except.ok () ∧ env.registerModule "submit" = Except.ok ())) := by
  have hsel : selectTopology o = Topology.minimal := by
    simp [selectTopology, h1, h2, h3]
  refine ⟨hsel, ?_, ?_, ?_, ?_⟩
  · rw [serve_fst_head env o, hsel]; rfl
  · cases hsub : o.submit with
    | none =>
      simp [serve, minimalBranch, condRegister, registerModuleStep, mbind, emit,
        liftE, mret, h1, h2, h3, hsub]
    | some s =>
      cases ha : env.mkSubmitApi <;> cases hb : env.registerModule "submit" <;>
        simp [serve, minimalBranch, condRegister, registerModuleStep, mbind, emit,
          liftE, mret, h1, h2, h3, hsub, ha, hb]
  · intro hsub
    simp [serve, minimalBranch, condRegister, registerModuleStep, mbind, emit,
      liftE, mret, h1, h2, h3, hsub, minimalTrace, condTrace, expectedNode,
      expectedTask, topologyMetrics, hsel]
  · cases hsub : o.submit with
    | none =>
      simp [serve, minimalBranch, condRegister, registerModuleStep, mbind, emit,
        liftE, mret, h1, h2, h3, hsub]
    | some s =>
      cases ha : env.mkSubmitApi <;> cases hb : env.registerModule "submit" <;>
        simp [serve, minimalBranch, condRegister, registerModuleStep, mbind, emit,
          liftE, mret, h1, h2, h3, hsub, ha, hb]

/-- C7 witness: the empty configuration at a concrete environment. -/
theorem minimal_topology_total_w :
    selectTopology oMinEx = Topology.minimal ∧
    (serve okEnv oMinEx).1.head? = some (Event.initHandleCall MetricsSrc.noMetrics) ∧
    Event.withState StateKind.handleOnly ∈ (serve okEnv oMinEx).1 ∧
    (oMinEx.submit = none →
      serve okEnv oMinEx = (minimalTrace oMinEx ++ [Event.startConsensus],
                            Except.ok (expectedNode okEnv oMinEx))) ∧
    ((∃ node, (serve okEnv oMinEx).2 = Except.ok node) ↔
      (oMinEx.submit.isSome = true →
        okEnv.mkSubmitApi = Except.ok () ∧
        okEnv.registerModule "submit" = Except.ok ())) :=
  minimal_topology_total okEnv oMinEx rfl rfl rfl

/-- C8: across all four topologies, a successful `serve` run registers the
submit module exactly when the `submit` field is set. -/
theorem submit_registered_iff_requested (env : Env) (o : Options)
    {t : List Event} {node : SequencerNode} (h : serve env o = (t, Except.ok node)) :
    (Event.registerModule "submit" ∈ t ↔ o.submit.isSome = true) := by
  obtain ⟨ht, -⟩ := serve_ok h
  subst ht
  cases htop : selectTopology o <;>
  cases hsub : o.submit.isSome <;>
  cases hst : o.status.isSome <;>
    simp [successTrace, htop, queryModuleTrace, statusTrace, minimalTrace,
      condTrace, hsub, hst]

/-- C8 witness: a minimal run with only the submit module requested. -/
theorem submit_registered_iff_requested_w :
    (Event.registerModule "submit" ∈ (serve okEnv oSubEx).1 ↔
      oSubEx.submit.isSome = true) :=
  submit_registered_iff_requested okEnv oSubEx rfl

/-- C9: every successful `serve` returns a node whose handle and node index
are exactly those produced by the caller-supplied `init_handle` closure (at
the metrics source of the selected topology), and in the query topologies the
availability module is registered unconditionally. -/
theorem node_matches_init_handle (env : Env) (o : Options)
    {t : List Event} {node : SequencerNode} (h : serve env o = (t, Except.ok node)) :
    node.handle = (env.initHandle (topologyMetrics (selectTopology o))).1 ∧
    node.node_index = (env.initHandle (topologyMetrics (selectTopology o))).2 ∧
    ((selectTopology o = Topology.querySql ∨ selectTopology o = Topology.queryFs) →
      Event.registerModule "availability" ∈ t) := by
  obtain ⟨ht, hn⟩ := serve_ok h
  subst ht
  subst hn
  refine ⟨rfl, rfl, ?_⟩
  rintro (h1 | h1) <;> simp [successTrace, h1, queryModuleTrace]

/-- C9 witness: concrete successful SQL-topology run. -/
theorem node_matches_init_handle_w :
    ({ handle := { id := 0 }, node_index := 0,
       update_task := TaskKind.joinedServeUpdate 80 } : SequencerNode).handle =
      (okEnv.initHandle (topologyMetrics (selectTopology oSqlEx))).1 ∧
    ({ handle := { id := 0 }, node_index := 0,
       update_task := TaskKind.joinedServeUpdate 80 } : SequencerNode).node_index =
      (okEnv.initHandle (topologyMetrics (selectTopology oSqlEx))).2 ∧
    ((selectTopology oSqlEx = Topology.querySql ∨
      selectTopology oSqlEx = Topology.queryFs) →
      Event.registerModule "availability" ∈ (serve okEnv oSqlEx).1) :=
  node_matches_init_handle okEnv oSqlEx rfl

/-- C10: `serve` never reads the `query` field — two `Options` differing only
in `query` produce identical runs — and consequently there is an `Options`
with SQL storage set and `query = None` for which `has_query_module` is false
yet `serve` selects the SQL query topology and registers the availability
module. -/
theorem serve_ignores_query_field :
    (∀ env o q, serve env { o with query := q } = serve env o) ∧
    Options.has_query_module oSqlEx = false ∧
    selectTopology oSqlEx = Topology.querySql ∧
    Event.registerModule "availability" ∈ (serve okEnv oSqlEx).1 := by
  refine ⟨?_, rfl, rfl, ?_⟩
  · intro env o q
    rcases o with ⟨h0, q0, s0, st0, f0, sq0⟩
    rfl
  · decide

/-- C3 counterexample: a successful SQL-topology run of `serve` returns a
joined server + update-loop task; if the server future terminates (here: with
an error) while the update loop never terminates, awaiting the combined task
never completes — refuting the claim that the combined task completes as soon
as either of the two tasks terminates. -/
theorem joined_task_completion_cex :
    (serve okEnv oSqlEx).2 =
      Except.ok { handle := { id := 0 }, node_index := 0,
                  update_task := TaskKind.joinedServeUpdate 80 } ∧
    (some (Except.error "boom") : Option (Except String Unit)).isSome = true ∧
    awaitTask (TaskKind.joinedServeUpdate 80) (some (Except.error "boom")) none =
      none ∧
    awaitTask (TaskKind.joinedServeUpdate 80) (some (Except.ok ()))
      (some (Except.error "boom")) = some (Except.ok ()) :=
  ⟨rfl, rfl, rfl, rfl⟩

/-- C3 (amended): in the query topologies the HTTP server task and the update
loop are joined into one awaitable task that completes exactly when both have
terminated, and the value that propagates to whoever awaits `update_task` is
the HTTP server task's result (the update loop's result is discarded). -/
theorem joined_task_join_semantics (env : Env) (o : Options)
    (hq : o.storage_sql.isSome = true ∨ o.storage_fs.isSome = true)
    {t : List Event} {node : SequencerNode} (h : serve env o = (t, Except.ok node))
    (srv upd : Option (Except String Unit)) :
    node.update_task = TaskKind.joinedServeUpdate o.http.port ∧
    ((awaitTask node.update_task srv upd).isSome = true ↔
      (srv.isSome = true ∧ upd.isSome = true)) ∧
    (upd.isSome = true → awaitTask node.update_task srv upd = srv) := by
  obtain ⟨-, hn⟩ := serve_ok h
  subst hn
  have htask : (expectedNode env o).update_task = TaskKind.joinedServeUpdate o.http.port := by
    cases hsql : o.storage_sql.isSome with
    | true => simp [expectedNode, expectedTask, selectTopology, hsql]
    | false =>
      have hfs : o.storage_fs.isSome = true := by
        rcases hq with h1 | h1
        · rw [hsql] at h1; exact absurd h1 (by simp)
        · exact h1
      simp [expectedNode, expectedTask, selectTopology, hsql, hfs]
  rw [htask]
  refine ⟨rfl, ?_, ?_⟩
  · cases srv <;> cases upd <;> simp [awaitTask]
  · cases srv <;> cases upd <;> simp [awaitTask]

/-- C3 amended-claim witness: concrete run with both futures terminating. -/
theorem joined_task_join_semantics_w :
    nodeSqlEx.update_task = TaskKind.joinedServeUpdate oSqlEx.http.port ∧
    ((awaitTask nodeSqlEx.update_task
        (some (Except.ok ())) (some (Except.ok ()))).isSome = true ↔
      ((some (Except.ok ()) : Option (Except String Unit)).isSome = true ∧
       (some (Except.ok ()) : Option (Except String Unit)).isSome = true)) ∧
    ((some (Except.ok ()) : Option (Except String Unit)).isSome = true →
      awaitTask nodeSqlEx.update_task
        (some (Except.ok ())) (some (Except.ok ())) = some (Except.ok ())) :=
  joined_task_join_semantics okEnv oSqlEx (Or.inl rfl) rfl
    (some (Except.ok ())) (some (Except.ok ()))

/-- C5 counterexample: an `Options` built through the public builder API with
`query_fs` followed by `query_sql` has both storage fields set, refuting the
claim that at most one of them is ever `Some`. -/
theorem builder_storage_cex :
    (((Options.fromHttp { port := 80 }).query_fs () (0 : Nat)).query_sql ()
        (0 : Nat)).storage_fs.isSome = true ∧
    (((Options.fromHttp { port := 80 }).query_fs () (0 : Nat)).query_sql ()
        (0 : Nat)).storage_sql.isSome = true :=
  ⟨rfl, rfl⟩

theorem foldl_sql_none (calls : List BuilderCall) :
    ∀ o : Options, o.storage_sql = none →
      (∀ c ∈ calls, isQuerySqlCall c = false) →
      (calls.foldl applyCall o).storage_sql = none := by
  induction calls with
  | nil => intro o h _; simpa using h
  | cons c cs ih =>
    intro o h hall
    simp only [List.foldl_cons]
    refine ih _ ?_ (fun d hd => hall d (List.mem_cons_of_mem _ hd))
    cases c with
    | querySqlCall q s =>
      exact absurd (hall _ (List.mem_cons_self _ _)) (by simp [isQuerySqlCall])
    | queryFsCall q s => simpa [applyCall, Options.query_fs] using h
    | submitCall s => simpa [applyCall, Options.withSubmit] using h
    | statusCall s => simpa [applyCall, Options.withStatus] using h

theorem foldl_fs_none (calls : List BuilderCall) :
    ∀ o : Options, o.storage_fs = none →
      (∀ c ∈ calls, isQueryFsCall c = false) →
      (calls.foldl applyCall o).storage_fs = none := by
  induction calls with
  | nil => intro o h _; simpa using h
  | cons c cs ih =>
    intro o h hall
    simp only [List.foldl_cons]
    refine ih _ ?_ (fun d hd => hall d (List.mem_cons_of_mem _ hd))
    cases c with
    | queryFsCall q s =>
      exact absurd (hall _ (List.mem_cons_self _ _)) (by simp [isQueryFsCall])
    | querySqlCall q s => simpa [applyCall, Options.query_sql] using h
    | submitCall s => simpa [applyCall, Options.withSubmit] using h
    | statusCall s => simpa [applyCall, Options.withStatus] using h

/-- C5 (amended): for every `Options` built through the public builder API by
a call sequence that does not contain both a `query_sql` and a `query_fs`
call, at most one of `storage_fs` and `storage_sql` is `Some`. -/
theorem builder_storage_at_most_one (http : Http) (calls : List BuilderCall)
    (h : (∀ c ∈ calls, isQuerySqlCall c = false) ∨
         (∀ c ∈ calls, isQueryFsCall c = false)) :
    ¬((build http calls).storage_fs.isSome = true ∧
      (build http calls).storage_sql.isSome = true) := by
  rcases h with h | h
  · have hnone : (build http calls).storage_sql = none :=
      foldl_sql_none calls (Options.fromHttp http) rfl h
    simp [hnone]
  · have hnone : (build http calls).storage_fs = none :=
      foldl_fs_none calls (Options.fromHttp http) rfl h
    simp [hnone]

/-- C5 amended-claim witness: a concrete builder sequence without `query_sql`. -/
theorem builder_storage_at_most_one_w :
    ¬((build { port := 80 } callsEx).storage_fs.isSome = true ∧
      (build { port := 80 } callsEx).storage_sql.isSome = true) :=
  builder_storage_at_most_one { port := 80 } callsEx (Or.inl (by decide))
